import Mathlib

/-!
# Verification of the slurpd replication apply engine (`servers/slurpd/ldap_op.c`)

A shallow embedding of `ldap_op.c`: the change-record data model, the four
protocol operations (`op_ldap_add`, `op_ldap_modify`, `op_ldap_delete`,
`op_ldap_modrdn`), the bind/unbind routines (`do_bind`, `do_unbind`) and the
retry loop (`do_ldap`).

Modelling conventions:
* The external LDAP library is an environment: every protocol call the code
  would issue is recorded in a `Call` trace, and the library's result codes
  are inputs (`BindEnv`, `AttemptEnv`, the `opRc` arguments).
* Machine pointers become `Option`/`Bool` values; a dereference of a null or
  uninitialized pointer is an explicit `UBReason` outcome, so that a run of
  the embedded code either returns as the C would or reports exactly which
  undefined access the C would perform.
* The embedding is of a build without the conditional ticket-authentication
  support (`KERBEROS` undefined): in that build the ticket branch of
  `do_bind` fails right after the connection is opened.
-/

namespace Slurpd

/-- Modelled from the spec: tag string for the separator line of a
modification record (the header declaring these tokens is not part of the
sources; only the distinctness of the tags matters below). -/
def T_MODSEPSTR : String := "-"

/-- Modelled from the spec: tag string for the add-values operator line. -/
def T_MODOPADDSTR : String := "add"

/-- Modelled from the spec: tag string for the replace-values operator line. -/
def T_MODOPREPLACESTR : String := "replace"

/-- Modelled from the spec: tag string for the delete-values operator line. -/
def T_MODOPDELETESTR : String := "delete"

/-- Modelled from the spec: tag string for the new-relative-name argument of a
rename record. -/
def T_NEWRDNSTR : String := "newrdn"

/-- Modelled from the spec: tag string for the delete-old-RDN-flag argument of
a rename record. -/
def T_DRDNFLAGSTR : String := "deleteoldrdn"

/-- Modelled from the spec: change-type code for add records (the numeric
values of the change-type codes come from the missing header; only their
distinctness matters). -/
def T_ADDCT : Nat := 4

/-- Modelled from the spec: change-type code for modify records. -/
def T_MODIFYCT : Nat := 5

/-- Modelled from the spec: change-type code for delete records. -/
def T_DELETECT : Nat := 6

/-- Modelled from the spec: change-type code for rename (modrdn) records. -/
def T_MODRDNCT : Nat := 7

/-- Modelled from the spec: configuration code for the plaintext
authentication method. -/
def AUTH_SIMPLE : Nat := 0

/-- Modelled from the spec: configuration code for the ticket-based
authentication method. -/
def AUTH_KERBEROS : Nat := 1

/-- Protocol success code (`LDAP_SUCCESS`, value 0 in the protocol library). -/
def LDAP_SUCCESS : Int := 0

/-- Modelled from the spec: the distinguished "server unavailable" protocol
error code (`LDAP_SERVER_DOWN`); the spec only requires it to be
distinguishable from every other code. -/
def LDAP_SERVER_DOWN : Int := 81

/-- One line of a change record (`struct mi`): an attribute-type-like tag, a
value and the value's explicit length. -/
structure Mi where
  mi_type : String
  mi_val : String
  mi_len : Nat
deriving DecidableEq, Repr

/-- One replication change record (`struct re`): target distinguished name,
change-type code, and the ModItem array.  `re_mods = none` models a null
`re_mods` pointer; `some l` models a terminated array holding the items of
`l` before the terminator. -/
structure Re where
  re_dn : String
  re_changetype : Nat
  re_mods : Option (List Mi)
deriving DecidableEq, Repr

/-- The `mod_op` field of an `LDAPMod`: the three modify operators, or the
bare `LDAP_MOD_BVALUES` form used by the add operation (the `LDAP_MOD_BVALUES`
flag itself is folded into the constructors). -/
inductive ModOp
  | bvonly
  | add
  | replace
  | delete
deriving DecidableEq, Repr

/-- An attribute-operation group (`LDAPMod`): operator, attribute type, and
the `(value, length)` pairs of its berval list. -/
structure LDAPMod where
  mod_op : ModOp
  mod_type : String
  mod_bvalues : List (String × Nat)
deriving DecidableEq, Repr

/-- Classification of a ModItem tag, as computed by `getmodtype`. -/
inductive ModClass
  | sep
  | opAdd
  | opReplace
  | opDelete
  | err
deriving DecidableEq, Repr

/-- `getmodtype`: classify a modification line's tag (separator, one of the
three operators, or `T_ERR` for anything else). -/
def getmodtype (t : String) : ModClass :=
  if t = T_MODSEPSTR then .sep
  else if t = T_MODOPADDSTR then .opAdd
  else if t = T_MODOPREPLACESTR then .opReplace
  else if t = T_MODOPDELETESTR then .opDelete
  else .err

/-- A call into the external LDAP library, recorded in program order. -/
inductive Call
  | unbindC
  | openConn (host : String) (port : Nat)
  | simpleBind (dn : String) (pw : String)
  | addOp (dn : String) (mods : List LDAPMod)
  | modifyOp (dn : String) (mods : List LDAPMod)
  | deleteOp (dn : String)
  | modrdnOp (dn : String) (newrdn : String) (flag : Int)
deriving DecidableEq, Repr

/-- The undefined accesses the C code can perform, made explicit. -/
inductive UBReason
  | nullModsDeref
  | nullArrayStore
  | nullArrayFree
  | uninitGroupRead
deriving DecidableEq, Repr

/-- Result of one `op_ldap_*` routine: either a normal return carrying the
returned code, the message written through `errmsg` (if any) and the protocol
calls issued, or an undefined access reached after writing `errmsg` and
issuing the listed calls. -/
inductive OpResult
  | ret (lderr : Int) (errmsg : Option String) (calls : List Call)
  | ub (reason : UBReason) (errmsg : Option String) (calls : List Call)
deriving DecidableEq, Repr

/-- Whether an `OpResult` is an undefined access rather than a return. -/
def OpResult.isUB : OpResult → Bool
  | .ret _ _ _ => false
  | .ub _ _ _ => true

/-- The protocol calls recorded in an `OpResult`. -/
def OpResult.callsOf : OpResult → List Call
  | .ret _ _ calls => calls
  | .ub _ _ calls => calls

/-- `make_singlevalued_berval`: a berval list holding the single given
value/length pair. -/
def make_singlevalued_berval (value : String) (len : Nat) : List (String × Nat) :=
  [(value, len)]

/-- `op_ldap_add`: build one `LDAP_MOD_BVALUES` group per ModItem verbatim.
A null `re_mods` pointer is dereferenced by the very first loop test
(`mi[i].mi_type`).  With zero items the array stays null: the code then sets
`errmsg` to "No modifications to do", leaves `lderr` at 0, and passes the
null array to `free_ldmarr`, whose loop dereferences it. -/
def op_ldap_add (re : Re) (addErrno : Int) : OpResult :=
  match re.re_mods with
  | none => .ub .nullModsDeref none []
  | some [] => .ub .nullArrayFree (some "No modifications to do") []
  | some mis =>
      .ret addErrno none
        [.addOp re.re_dn (mis.map fun mi =>
          { mod_op := .bvonly, mod_type := mi.mi_type,
            mod_bvalues := make_singlevalued_berval mi.mi_val mi.mi_len })]

/-- ASCII case folding of one character, as `strcasecmp` performs per byte:
fold an upper-case letter code to the corresponding lower-case code. -/
def asciiFold (c : Char) : Nat :=
  if 65 ≤ c.toNat ∧ c.toNat ≤ 90 then c.toNat + 32 else c.toNat

/-- `strcasecmp(a, b) == 0`: the two strings agree after per-character ASCII
case folding. -/
def strcaseEq (a b : String) : Bool :=
  a.data.map asciiFold == b.data.map asciiFold

/-- The state variable of `op_ldap_modify`'s one-pass machine: `AWAITING_OP`,
or the class code of the last separator/operator line seen. -/
inductive MState
  | awaitingOp
  | modSep
  | modOpAdd
  | modOpReplace
  | modOpDelete
deriving DecidableEq, Repr

/-- Append a berval to the group most recently opened (the group the C code's
`ldm` pointer designates, i.e. the last element of the array). -/
def appendToLast : List LDAPMod → (String × Nat) → List LDAPMod
  | [], _ => []
  | [g], v => [{ g with mod_bvalues := g.mod_bvalues ++ [v] }]
  | g :: g2 :: t, v => g :: appendToLast (g2 :: t) v

/-- The compile loop of `op_ldap_modify`.  `groups` is the `ldmarr` array
built so far (empty list = the array pointer is still null and the `ldm`
group pointer has never been assigned).  A plain line reached while the
state machine has left `AWAITING_OP` but no group was ever opened compares
the tag against the unassigned `ldm` pointer: `uninitGroupRead`.  Unknown
lines in `AWAITING_OP` state and case-insensitively mismatched plain lines
are logged and skipped (`continue`). -/
def modifyCompile : List Mi → MState → List LDAPMod → Except UBReason (List LDAPMod)
  | [], _, groups => .ok groups
  | mi :: rest, st, groups =>
    match getmodtype mi.mi_type with
    | .sep => modifyCompile rest .modSep groups
    | .opAdd =>
        modifyCompile rest .modOpAdd
          (groups ++ [{ mod_op := .add, mod_type := mi.mi_val, mod_bvalues := [] }])
    | .opReplace =>
        modifyCompile rest .modOpReplace
          (groups ++ [{ mod_op := .replace, mod_type := mi.mi_val, mod_bvalues := [] }])
    | .opDelete =>
        modifyCompile rest .modOpDelete
          (groups ++ [{ mod_op := .delete, mod_type := mi.mi_val, mod_bvalues := [] }])
    | .err =>
        if st = .awaitingOp then
          modifyCompile rest st groups
        else
          match groups.getLast? with
          | none => .error .uninitGroupRead
          | some g =>
              if strcaseEq mi.mi_type g.mod_type then
                modifyCompile rest st (appendToLast groups (mi.mi_val, mi.mi_len))
              else
                modifyCompile rest st groups

/-- `op_ldap_modify`: reject a null `re_mods` pointer with "No arguments
given" (returning -1); otherwise run the compile loop.  After the loop the
code stores the terminating null through `ldmarr[nops]`: with zero groups the
array pointer is still null (`nullArrayStore`).  With at least one group the
protocol modify is issued and its return code is returned. -/
def op_ldap_modify (re : Re) (modifyRc : Int) : OpResult :=
  match re.re_mods with
  | none => .ret (-1) (some "No arguments given") []
  | some mis =>
    match modifyCompile mis .awaitingOp [] with
    | .error r => .ub r none []
    | .ok groups =>
      if groups.isEmpty then .ub .nullArrayStore none []
      else .ret modifyRc none [.modifyOp re.re_dn groups]

/-- `op_ldap_delete`: issue the protocol delete for the record's dn and
return its result. -/
def op_ldap_delete (re : Re) (deleteRc : Int) : OpResult :=
  .ret deleteRc none [.deleteOp re.re_dn]

/-- Bit flag recording that the rename scan saw the new-RDN tag. -/
def GOT_NEWRDN : Nat := 1

/-- Bit flag recording that the rename scan saw the delete-old-RDN-flag tag. -/
def GOT_DRDNFLAGSTR : Nat := 2

/-- Both rename arguments seen. -/
def GOT_ALLNEWRDNFLAGS : Nat := 3

/-- Result of the rename argument scan: an early error return with its
message, or the final `state` bits, `drdnflag` and the last-scanned `newrdn`
value. -/
inductive ScanOut
  | errS (msg : String)
  | done (state : Nat) (drdnflag : Int) (newrdn : String)
deriving DecidableEq, Repr

/-- The argument scan of `op_ldap_modrdn`: `newrdn` and `deleteoldrdn` tags
set their flag bits; a `deleteoldrdn` value other than "0"/"1" and any other
tag return an error immediately. -/
def modrdnScan : List Mi → Nat → Int → String → ScanOut
  | [], st, fl, nr => .done st fl nr
  | mi :: rest, st, fl, nr =>
    if mi.mi_type = T_NEWRDNSTR then
      modrdnScan rest (st ||| GOT_NEWRDN) fl mi.mi_val
    else if mi.mi_type = T_DRDNFLAGSTR then
      if mi.mi_val = "0" then modrdnScan rest (st ||| GOT_DRDNFLAGSTR) 0 nr
      else if mi.mi_val = "1" then modrdnScan rest (st ||| GOT_DRDNFLAGSTR) 1 nr
      else .errS "Incorrect argument to deleteoldrdn"
    else .errS "Bad value in replication log entry"

/-- `op_ldap_modrdn`: reject a null `re_mods` pointer with "No arguments
given"; scan the arguments; with both flag bits set, call the protocol rename.
Faithful to the source: the call passes `mi->mi_val` where `mi` still points
at the *first* ModItem (the loop advanced the index `i`, not `mi`), so the
new-RDN argument of the call is `mods[0].mi_val` — the scanned `newrdn`
variable is never read.  The `headD` default is unreachable: both bits set
forces a non-empty item list.  The code returns `ld_errno` after the call,
modelled by `modrdnErrno`. -/
def op_ldap_modrdn (re : Re) (modrdnErrno : Int) : OpResult :=
  match re.re_mods with
  | none => .ret (-1) (some "No arguments given") []
  | some mis =>
    match modrdnScan mis 0 (-1) "" with
    | .errS m => .ret (-1) (some m) []
    | .done st fl _nr =>
      if st ≠ GOT_ALLNEWRDNFLAGS then
        .ret (-1)
          (some "Missing argument: requires \"newrdn\" and \"deleteoldrdn\"") []
      else
        .ret modrdnErrno none
          [.modrdnOp re.re_dn (mis.headD { mi_type := "", mi_val := "", mi_len := 0 }).mi_val fl]

/-- One replica target (`struct ri`), restricted to the fields the embedded
routines read: host, port, authentication method code, bind identity,
plaintext credential, and whether a live session handle (`ri_ldp`) is
present. -/
structure Ri where
  ri_hostname : String
  ri_port : Nat
  ri_bind_method : Nat
  ri_bind_dn : String
  ri_password : String
  ri_ldp : Bool
deriving DecidableEq, Repr

/-- Return codes of `do_bind`.  `BIND_ERR_BADRI` is omitted: the embedding
passes the replica record by value, so the null-pointer guard at the top of
`do_bind` is unreachable. -/
inductive BindRet
  | bindOk
  | errOpen
  | errKerberosFailed
  | errSimpleFailed
  | errBadAtype
deriving DecidableEq, Repr

/-- The protocol library's responses to one bind attempt: whether
`ldap_open` yields a handle, and the result code of `ldap_simple_bind_s`. -/
structure BindEnv where
  openOk : Bool
  simpleRc : Int
deriving DecidableEq, Repr

/-- Everything `do_bind` produces: its return code, the `lderr` output
parameter, the updated replica record, and the protocol calls issued. -/
structure BindResult where
  rc : BindRet
  lderr : Int
  ri : Ri
  calls : List Call
deriving DecidableEq, Repr

/-- `do_bind`: unbind any stale session, open a fresh connection (the handle
is stored on the target as soon as `ldap_open` succeeds), set the
no-referrals/restart options, then switch on the configured method.  In this
build the ticket-based branch fails immediately (`BIND_ERR_KERBEROS_FAILED`);
the plaintext branch issues the simple bind; any other method code returns
`BIND_ERR_BAD_ATYPE`.  Note that the connection is opened *before* the
method is examined. -/
def do_bind (ri : Ri) (env : BindEnv) : BindResult :=
  let step1 :=
    if ri.ri_ldp then ({ ri with ri_ldp := false }, [Call.unbindC]) else (ri, ([] : List Call))
  let ri1 := step1.1
  let calls2 := step1.2 ++ [Call.openConn ri1.ri_hostname ri1.ri_port]
  if ¬ env.openOk then
    { rc := .errOpen, lderr := 0, ri := ri1, calls := calls2 }
  else
    let ri2 := { ri1 with ri_ldp := true }
    if ri2.ri_bind_method = AUTH_KERBEROS then
      { rc := .errKerberosFailed, lderr := 0, ri := ri2, calls := calls2 }
    else if ri2.ri_bind_method = AUTH_SIMPLE then
      if env.simpleRc ≠ LDAP_SUCCESS then
        { rc := .errSimpleFailed, lderr := env.simpleRc, ri := ri2,
          calls := calls2 ++ [Call.simpleBind ri2.ri_bind_dn ri2.ri_password] }
      else
        { rc := .bindOk, lderr := 0, ri := ri2,
          calls := calls2 ++ [Call.simpleBind ri2.ri_bind_dn ri2.ri_password] }
    else
      { rc := .errBadAtype, lderr := 0, ri := ri2, calls := calls2 }

/-- `do_unbind`: close and clear the session if one is present, otherwise do
nothing.  The C return code is discarded by the caller in `do_ldap`
(`(void) do_unbind(ri)`), so only the updated record and the trace are
returned. -/
def do_unbind (ri : Ri) : Ri × List Call :=
  if ri.ri_ldp then ({ ri with ri_ldp := false }, [Call.unbindC]) else (ri, [])

/-- The change-type dispatch of `do_ldap`'s switch: `none` is the default
case (bad change type). -/
def dispatchOp (re : Re) (opRc : Int) : Option OpResult :=
  if re.re_changetype = T_ADDCT then some (op_ldap_add re opRc)
  else if re.re_changetype = T_MODIFYCT then some (op_ldap_modify re opRc)
  else if re.re_changetype = T_DELETECT then some (op_ldap_delete re opRc)
  else if re.re_changetype = T_MODRDNCT then some (op_ldap_modrdn re opRc)
  else none

/-- The three documented outcomes of `do_ldap`, plus the explicit
undefined-access outcome propagated from an operation routine. -/
inductive DoLdapRet
  | okR
  | retryable
  | fatal
  | ubR (r : UBReason)
deriving DecidableEq, Repr

/-- The protocol library's responses for one iteration of `do_ldap`'s loop:
the bind responses and the result code of whichever operation call the
iteration issues. -/
structure AttemptEnv where
  bindEnv : BindEnv
  opRc : Int
deriving DecidableEq, Repr

/-- Everything `do_ldap` produces: the outcome, the final `errmsg`, and the
protocol calls issued across all attempts, in order. -/
structure DoLdapResult where
  ret : DoLdapRet
  errmsg : Option String
  calls : List Call
deriving DecidableEq, Repr

/-- `errmsg` is written only by the routines that set it: a routine that
returns without writing leaves the previous contents in place. -/
def mergeMsg (old new : Option String) : Option String :=
  match new with
  | some s => some s
  | none => old

/-- The `while (retry > 0)` loop of `do_ldap`, with `fuel` the remaining
`retry` budget and `attempt` indexing the environment.  Each iteration binds
if no session is present (a bind failure returns `retryable` at once),
dispatches on the change type (an unknown type is `fatal`), and classifies
the result: success is `okR`, `LDAP_SERVER_DOWN` unbinds, decrements the
budget and loops, anything else is `fatal`.  Exhausting the budget is
`fatal`. -/
def doLdapLoop (re : Re) (env : Nat → AttemptEnv) :
    Nat → Ri → Nat → Option String → List Call → DoLdapResult
  | 0, _, _, msg, acc => { ret := .fatal, errmsg := msg, calls := acc }
  | fuel + 1, ri, attempt, msg, acc =>
    let e := env attempt
    let bstep :=
      if ri.ri_ldp then (ri, ([] : List Call), false)
      else
        let b := do_bind ri e.bindEnv
        (b.ri, b.calls, !(b.rc == BindRet.bindOk))
    let ri1 := bstep.1
    let bcalls := bstep.2.1
    if bstep.2.2 then
      { ret := .retryable, errmsg := msg, calls := acc ++ bcalls }
    else
      match dispatchOp re e.opRc with
      | none => { ret := .fatal, errmsg := msg, calls := acc ++ bcalls }
      | some (.ub r m c) =>
          { ret := .ubR r, errmsg := mergeMsg msg m, calls := acc ++ bcalls ++ c }
      | some (.ret lderr m c) =>
          if lderr = LDAP_SUCCESS then
            { ret := .okR, errmsg := mergeMsg msg m, calls := acc ++ bcalls ++ c }
          else if lderr = LDAP_SERVER_DOWN then
            let ustep := do_unbind ri1
            doLdapLoop re env fuel ustep.1 (attempt + 1) (mergeMsg msg m)
              (acc ++ bcalls ++ c ++ ustep.2)
          else
            { ret := .fatal, errmsg := mergeMsg msg m, calls := acc ++ bcalls ++ c }

/-- `do_ldap`: clear `errmsg` and run the loop with the initial retry budget
of 2. -/
def do_ldap (ri : Ri) (re : Re) (env : Nat → AttemptEnv) : DoLdapResult :=
  doLdapLoop re env 2 ri 0 none []

/-- Whether a tag class is one of the three group-opening operators. -/
def isOperatorClass : ModClass → Bool
  | .opAdd => true
  | .opReplace => true
  | .opDelete => true
  | _ => false

lemma modifyCompile_skip_err (mi : Mi) (rest : List Mi) (groups : List LDAPMod)
    (h : getmodtype mi.mi_type = ModClass.err) :
    modifyCompile (mi :: rest) .awaitingOp groups = modifyCompile rest .awaitingOp groups := by
  simp [modifyCompile, h]

lemma modifyCompile_skip_err_leading (pre rest : List Mi) (groups : List LDAPMod)
    (h : ∀ mi ∈ pre, getmodtype mi.mi_type = ModClass.err) :
    modifyCompile (pre ++ rest) .awaitingOp groups = modifyCompile rest .awaitingOp groups := by
  induction pre with
  | nil => rfl
  | cons mi pre ih =>
      rw [List.cons_append, modifyCompile_skip_err mi _ _ (h mi (by simp))]
      exact ih fun m hm => h m (by simp [hm])

lemma modifyCompile_sep (mi : Mi) (rest : List Mi) (st : MState) (groups : List LDAPMod)
    (h : getmodtype mi.mi_type = ModClass.sep) :
    modifyCompile (mi :: rest) st groups = modifyCompile rest .modSep groups := by
  simp [modifyCompile, h]

lemma modifyCompile_all_sep (S : List Mi) (st : MState) (groups : List LDAPMod)
    (h : ∀ mi ∈ S, getmodtype mi.mi_type = ModClass.sep) :
    modifyCompile S st groups = .ok groups := by
  induction S generalizing st with
  | nil => rfl
  | cons mi S ih =>
      rw [modifyCompile_sep mi _ _ _ (h mi (by simp))]
      exact ih .modSep fun m hm => h m (by simp [hm])

lemma modifyCompile_sep_leading (pre ms : List Mi) (st : MState) (groups : List LDAPMod)
    (hne : pre ≠ []) (h : ∀ mi ∈ pre, getmodtype mi.mi_type = ModClass.sep) :
    modifyCompile (pre ++ ms) st groups = modifyCompile ms .modSep groups := by
  induction pre generalizing st with
  | nil => exact absurd rfl hne
  | cons mi pre ih =>
      rw [List.cons_append, modifyCompile_sep mi _ _ _ (h mi (by simp))]
      cases pre with
      | nil => rfl
      | cons p ps => exact ih MState.modSep (by simp) (fun m hm => h m (by simp [hm]))

lemma modifyCompile_no_operator (mods : List Mi) (st : MState)
    (h : ∀ mi ∈ mods, isOperatorClass (getmodtype mi.mi_type) = false) :
    modifyCompile mods st [] = .ok [] ∨
      modifyCompile mods st [] = .error UBReason.uninitGroupRead := by
  induction mods generalizing st with
  | nil => exact Or.inl rfl
  | cons mi rest ih =>
      have hmi := h mi (by simp)
      have hrest : ∀ m ∈ rest, isOperatorClass (getmodtype m.mi_type) = false :=
        fun m hm => h m (by simp [hm])
      cases hclass : getmodtype mi.mi_type with
      | sep =>
          rw [modifyCompile_sep mi _ _ _ hclass]
          exact ih .modSep hrest
      | opAdd => rw [hclass] at hmi; simp [isOperatorClass] at hmi
      | opReplace => rw [hclass] at hmi; simp [isOperatorClass] at hmi
      | opDelete => rw [hclass] at hmi; simp [isOperatorClass] at hmi
      | err =>
          by_cases hst : st = MState.awaitingOp
          · subst hst
            rw [modifyCompile_skip_err mi _ _ hclass]
            exact ih .awaitingOp hrest
          · right
            simp [modifyCompile, hclass, hst]

/-- C1: for an add change record with an empty ModItem list, the claim says
`do_ldap` applying `op_ldap_add` returns the fatal outcome with message "no
modifications to do" and issues no protocol add call.  What the code does at
that input: `op_ldap_add` writes the message and issues no call, but its
return value is still 0 (`LDAP_SUCCESS`), and before returning it passes the
null group array to `free_ldmarr`, which dereferences it, so the apply never
produces the fatal outcome. -/
theorem c1_add_empty_mods_behavior :
    op_ldap_add ⟨"cn=entry,o=University", T_ADDCT, some []⟩ 0 =
      .ub .nullArrayFree (some "No modifications to do") [] ∧
    do_ldap ⟨"replica.example.com", 389, AUTH_SIMPLE, "cn=Repl,o=U", "pw", true⟩
      ⟨"cn=entry,o=University", T_ADDCT, some []⟩
      (fun _ => ⟨⟨true, 0⟩, 0⟩) =
      ⟨.ubR .nullArrayFree, some "No modifications to do", []⟩ := by
  decide

/-- C4: for a modify change record whose ModItem sequence produces zero
attribute-operation groups, the claim says the compiler rejects with "no
modifications to do" and the apply returns a fatal outcome.  What the code
does at such an input (a single plain line, skipped while awaiting an
operator): it stores the terminating null through the still-null group array
pointer; no such message exists in `op_ldap_modify`, and the guarded call
path would return 0 (success). -/
theorem c4_modify_zero_groups_behavior :
    op_ldap_modify ⟨"cn=entry,o=University", T_MODIFYCT,
      some [⟨"cn", "v", 1⟩]⟩ 0 = .ub .nullArrayStore none [] := by
  decide

/-- C6: rename argument handling.  The missing-argument, bad-flag-value and
unknown-tag cases behave as the claim says, but when both tags are present
the protocol rename is invoked with `mods[0].mi_val` (the first item's
value), not with the parsed new relative name: with `deleteoldrdn` first the
call passes "1" as the new RDN instead of "cn=New".  (With `newrdn` first the
two coincide.) -/
theorem c6_modrdn_behavior :
    op_ldap_modrdn ⟨"cn=Old,o=University", T_MODRDNCT,
      some [⟨"deleteoldrdn", "1", 1⟩, ⟨"newrdn", "cn=New", 6⟩]⟩ 0 =
      .ret 0 none [.modrdnOp "cn=Old,o=University" "1" 1] ∧
    op_ldap_modrdn ⟨"cn=Old,o=University", T_MODRDNCT,
      some [⟨"newrdn", "cn=New", 6⟩, ⟨"deleteoldrdn", "1", 1⟩]⟩ 0 =
      .ret 0 none [.modrdnOp "cn=Old,o=University" "cn=New" 1] ∧
    op_ldap_modrdn ⟨"cn=Old,o=University", T_MODRDNCT,
      some [⟨"newrdn", "cn=New", 6⟩]⟩ 0 =
      .ret (-1)
        (some "Missing argument: requires \"newrdn\" and \"deleteoldrdn\"") [] ∧
    op_ldap_modrdn ⟨"cn=Old,o=University", T_MODRDNCT,
      some [⟨"newrdn", "cn=New", 6⟩, ⟨"deleteoldrdn", "2", 1⟩]⟩ 0 =
      .ret (-1) (some "Incorrect argument to deleteoldrdn") [] ∧
    op_ldap_modrdn ⟨"cn=Old,o=University", T_MODRDNCT,
      some [⟨"newrdn", "cn=New", 6⟩, ⟨"deleteoldrdn", "1", 1⟩,
        ⟨"bogus", "x", 1⟩]⟩ 0 =
      .ret (-1) (some "Bad value in replication log entry") [] := by
  decide

/-- C10: with an absent (null) ModItem array, `op_ldap_modify` and
`op_ldap_modrdn` return -1 with the message "No arguments given", while
`op_ldap_add` performs no such check and dereferences the absent array. -/
theorem c10_null_mods_pointer (dn : String) (ct : Nat) (rc : Int) :
    op_ldap_add ⟨dn, ct, none⟩ rc = .ub .nullModsDeref none [] ∧
    op_ldap_modify ⟨dn, ct, none⟩ rc =
      .ret (-1) (some "No arguments given") [] ∧
    op_ldap_modrdn ⟨dn, ct, none⟩ rc =
      .ret (-1) (some "No arguments given") [] :=
  ⟨rfl, rfl, rfl⟩

/-- C2 counterexample: a modify record whose first ModItem is a plain
attribute line, followed by an operator line and a matching value line.  The
claim says such a record is rejected and the protocol layer is never called;
the code instead skips the leading plain line, compiles the rest, and issues
the protocol modify. -/
theorem c2_counterexample :
    op_ldap_modify ⟨"cn=entry,o=University", T_MODIFYCT,
      some [⟨"cn", "v0", 2⟩, ⟨"add", "cn", 2⟩, ⟨"cn", "v1", 2⟩]⟩ 0 =
      .ret 0 none [.modifyOp "cn=entry,o=University"
        [⟨.add, "cn", [("v1", 2)]⟩]] := by
  decide

/-- C3 counterexample: a group is open for "cn" and a plain line tagged "sn"
follows.  The claim says the record is rejected and the modify is not issued;
the code instead drops the mismatched line and issues the modify with the
remaining values. -/
theorem c3_counterexample :
    op_ldap_modify ⟨"cn=entry,o=University", T_MODIFYCT,
      some [⟨"add", "cn", 2⟩, ⟨"cn", "v1", 2⟩, ⟨"sn", "v2", 2⟩]⟩ 0 =
      .ret 0 none [.modifyOp "cn=entry,o=University"
        [⟨.add, "cn", [("v1", 2)]⟩]] := by
  decide

/-- C5 counterexample: a replica whose method code is neither plaintext nor
ticket-based.  The claim says no network call is attempted and the outcome is
a never-retried fatal configuration error; the code opens a connection first
(a network call) and `do_ldap` maps the bind failure to the retryable
outcome, not the fatal one. -/
theorem c5_counterexample :
    (do_bind ⟨"replica.example.com", 389, 9, "cn=Repl,o=U", "pw", false⟩
        ⟨true, 0⟩).calls = [Call.openConn "replica.example.com" 389] ∧
    (do_ldap ⟨"replica.example.com", 389, 9, "cn=Repl,o=U", "pw", false⟩
        ⟨"cn=x,o=U", T_DELETECT, none⟩
        (fun _ => ⟨⟨true, 0⟩, 0⟩)).ret = DoLdapRet.retryable ∧
    DoLdapRet.retryable ≠ DoLdapRet.fatal := by
  decide

/-- C2 (amended): a plain attribute line appearing before any operator line
is not a rejection: `op_ldap_modify` logs it and skips the item, compiling
the record exactly as if the leading plain lines were absent (so the
protocol modify is still issued whenever the rest of the record opens a
group). -/
theorem c2_plain_before_operator_skipped (dn : String) (ct : Nat) (rc : Int)
    (pre rest : List Mi)
    (hpre : ∀ mi ∈ pre, getmodtype mi.mi_type = ModClass.err) :
    op_ldap_modify ⟨dn, ct, some (pre ++ rest)⟩ rc =
      op_ldap_modify ⟨dn, ct, some rest⟩ rc := by
  simp only [op_ldap_modify, modifyCompile_skip_err_leading pre rest [] hpre]

/-- Witness for the C2 amended theorem at a concrete record. -/
theorem c2_plain_before_operator_skipped_witness :
    op_ldap_modify ⟨"cn=entry,o=University", T_MODIFYCT,
      some ([⟨"cn", "v0", 2⟩] ++ [⟨"add", "cn", 2⟩, ⟨"cn", "v1", 2⟩])⟩ 0 =
    op_ldap_modify ⟨"cn=entry,o=University", T_MODIFYCT,
      some [⟨"add", "cn", 2⟩, ⟨"cn", "v1", 2⟩]⟩ 0 :=
  c2_plain_before_operator_skipped "cn=entry,o=University" T_MODIFYCT 0
    [⟨"cn", "v0", 2⟩] [⟨"add", "cn", 2⟩, ⟨"cn", "v1", 2⟩] (by decide)

/-- C3 (amended): a plain attribute line whose tag differs case-insensitively
from the open group's attribute type is not a rejection: the compile loop
logs the mismatch and skips the line, leaving the record's compilation (and
hence the issued protocol modify) exactly as if the line were absent. -/
theorem c3_mismatched_line_skipped (mi : Mi) (rest : List Mi) (st : MState)
    (groups : List LDAPMod) (g : LDAPMod)
    (herr : getmodtype mi.mi_type = ModClass.err)
    (hst : st ≠ MState.awaitingOp)
    (hlast : groups.getLast? = some g)
    (hmis : strcaseEq mi.mi_type g.mod_type = false) :
    modifyCompile (mi :: rest) st groups = modifyCompile rest st groups := by
  simp [modifyCompile, herr, hst, hlast, hmis]

/-- Witness for the C3 amended theorem at a concrete compile state. -/
theorem c3_mismatched_line_skipped_witness :
    modifyCompile [⟨"sn", "v2", 2⟩] MState.modOpAdd
        [⟨ModOp.add, "cn", [("v1", 2)]⟩] =
      modifyCompile [] MState.modOpAdd [⟨ModOp.add, "cn", [("v1", 2)]⟩] :=
  c3_mismatched_line_skipped ⟨"sn", "v2", 2⟩ [] MState.modOpAdd
    [⟨ModOp.add, "cn", [("v1", 2)]⟩] ⟨ModOp.add, "cn", [("v1", 2)]⟩
    (by decide) (by decide) (by decide) (by decide)

/-- C8: a non-empty modify record containing no add/replace/delete operator
line never returns normally from `op_ldap_modify`: the run ends in an
undefined access, and whenever the record consists of plain/unknown lines
followed only by separator lines (so that the loop completes — in
particular for a single separator line, or for unknown tags only) the access
is exactly the null-terminator store into the never-allocated group array. -/
theorem c8_no_operator_hits_null_store (dn : String) (ct : Nat) (rc : Int)
    (mods : List Mi) (hne : mods ≠ [])
    (hnoop : ∀ mi ∈ mods, isOperatorClass (getmodtype mi.mi_type) = false) :
    (op_ldap_modify ⟨dn, ct, some mods⟩ rc).isUB = true ∧
    (∀ E S : List Mi, mods = E ++ S →
      (∀ mi ∈ E, getmodtype mi.mi_type = ModClass.err) →
      (∀ mi ∈ S, getmodtype mi.mi_type = ModClass.sep) →
      op_ldap_modify ⟨dn, ct, some mods⟩ rc = .ub .nullArrayStore none []) := by
  constructor
  · rcases modifyCompile_no_operator mods .awaitingOp hnoop with h | h <;>
      simp [op_ldap_modify, h, OpResult.isUB]
  · rintro E S rfl hE hS
    have hok : modifyCompile (E ++ S) .awaitingOp [] = .ok [] := by
      rw [modifyCompile_skip_err_leading E S [] hE,
        modifyCompile_all_sep S .awaitingOp [] hS]
    simp [op_ldap_modify, hok]

/-- Witness for C8 at the record holding a single separator line. -/
theorem c8_no_operator_hits_null_store_witness :
    (op_ldap_modify ⟨"cn=entry,o=University", T_MODIFYCT,
        some [⟨"-", "", 0⟩]⟩ 0).isUB = true ∧
    op_ldap_modify ⟨"cn=entry,o=University", T_MODIFYCT,
        some [⟨"-", "", 0⟩]⟩ 0 = .ub .nullArrayStore none [] := by
  have h := c8_no_operator_hits_null_store "cn=entry,o=University" T_MODIFYCT 0
    [⟨"-", "", 0⟩] (by decide) (by decide)
  exact ⟨h.1, h.2 [] [⟨"-", "", 0⟩] rfl (by decide) (by decide)⟩

/-- C9: a separator line moves the state machine out of `AWAITING_OP` even
though no group was ever opened, so a plain/unknown line following the
separator (before any operator line) is not taken by the guarded
awaiting-operator branch: it is compared against the never-assigned group
pointer, an uninitialized read. -/
theorem c9_plain_after_separator_uninit_read (dn : String) (ct : Nat)
    (rc : Int) (pre : List Mi) (x : Mi) (rest : List Mi)
    (hne : pre ≠ [])
    (hsep : ∀ mi ∈ pre, getmodtype mi.mi_type = ModClass.sep)
    (hx : getmodtype x.mi_type = ModClass.err) :
    op_ldap_modify ⟨dn, ct, some (pre ++ x :: rest)⟩ rc =
      .ub .uninitGroupRead none [] := by
  have h1 : modifyCompile (pre ++ x :: rest) .awaitingOp [] =
      .error UBReason.uninitGroupRead := by
    rw [modifyCompile_sep_leading pre (x :: rest) .awaitingOp [] hne hsep]
    simp [modifyCompile, hx]
  simp [op_ldap_modify, h1]

/-- Witness for C9: a separator line directly followed by a plain line. -/
theorem c9_plain_after_separator_uninit_read_witness :
    op_ldap_modify ⟨"cn=entry,o=University", T_MODIFYCT,
        some ([⟨"-", "", 0⟩] ++ ⟨"cn", "v", 1⟩ :: [])⟩ 0 =
      .ub .uninitGroupRead none [] :=
  c9_plain_after_separator_uninit_read "cn=entry,o=University" T_MODIFYCT 0
    [⟨"-", "", 0⟩] ⟨"cn", "v", 1⟩ [] (by decide) (by decide) (by decide)

/-- C5 (amended): with no live session and an authentication method that is
neither plaintext nor ticket-based, `do_bind` first opens a connection to the
target (a network call, stored as the session handle) and only then examines
the method, returning the configuration error without attempting a bind; and
`do_ldap` maps this bind failure to the retryable outcome, not a fatal
one. -/
theorem c5_unknown_method_behavior (ri : Ri) (re : Re) (env : Nat → AttemptEnv)
    (hm1 : ri.ri_bind_method ≠ AUTH_SIMPLE)
    (hm2 : ri.ri_bind_method ≠ AUTH_KERBEROS)
    (hldp : ri.ri_ldp = false)
    (ho : (env 0).bindEnv.openOk = true) :
    do_bind ri (env 0).bindEnv =
      ⟨.errBadAtype, 0, { ri with ri_ldp := true },
        [Call.openConn ri.ri_hostname ri.ri_port]⟩ ∧
    do_ldap ri re env =
      ⟨.retryable, none, [Call.openConn ri.ri_hostname ri.ri_port]⟩ := by
  have hb : do_bind ri (env 0).bindEnv =
      ⟨.errBadAtype, 0, { ri with ri_ldp := true },
        [Call.openConn ri.ri_hostname ri.ri_port]⟩ := by
    simp [do_bind, hldp, ho, hm1, hm2]
  refine ⟨hb, ?_⟩
  simp [do_ldap, doLdapLoop, hldp, hb]

/-- Witness for the C5 amended theorem at a concrete replica. -/
theorem c5_unknown_method_behavior_witness :
    do_bind ⟨"ldap.example.org", 10389, 3, "cn=R,o=Org", "secret", false⟩
        ⟨true, 0⟩ =
      ⟨.errBadAtype, 0, ⟨"ldap.example.org", 10389, 3, "cn=R,o=Org", "secret", true⟩,
        [Call.openConn "ldap.example.org" 10389]⟩ ∧
    do_ldap ⟨"ldap.example.org", 10389, 3, "cn=R,o=Org", "secret", false⟩
        ⟨"cn=y,o=Org", T_DELETECT, none⟩ (fun _ => ⟨⟨true, 0⟩, 0⟩) =
      ⟨.retryable, none, [Call.openConn "ldap.example.org" 10389]⟩ :=
  c5_unknown_method_behavior
    ⟨"ldap.example.org", 10389, 3, "cn=R,o=Org", "secret", false⟩
    ⟨"cn=y,o=Org", T_DELETECT, none⟩ (fun _ => ⟨⟨true, 0⟩, 0⟩)
    (by decide) (by decide) rfl rfl

/-- C7: the retry controller of `do_ldap`.  (a) If the dispatched operation
reports "server unavailable" on both attempts, exactly one
teardown-rebind-reapply cycle happens between the two dispatches and the
overall outcome is fatal.  (b) If the second attempt succeeds, the overall
outcome is ok.  (c) A bind failure at the start of an attempt yields the
retryable outcome at once, with no operation dispatched and no retry cycle
consumed. -/
theorem c7_retry_controller :
    (∀ (ri : Ri) (re : Re) (env : Nat → AttemptEnv) (m0 m1 : Option String)
      (c0 c1 : List Call),
      ri.ri_ldp = true → ri.ri_bind_method = AUTH_SIMPLE →
      dispatchOp re (env 0).opRc = some (.ret LDAP_SERVER_DOWN m0 c0) →
      dispatchOp re (env 1).opRc = some (.ret LDAP_SERVER_DOWN m1 c1) →
      (env 1).bindEnv.openOk = true →
      (env 1).bindEnv.simpleRc = LDAP_SUCCESS →
      do_ldap ri re env =
        ⟨.fatal, mergeMsg (mergeMsg none m0) m1,
          c0 ++ Call.unbindC :: Call.openConn ri.ri_hostname ri.ri_port ::
            Call.simpleBind ri.ri_bind_dn ri.ri_password ::
              (c1 ++ [Call.unbindC])⟩) ∧
    (∀ (ri : Ri) (re : Re) (env : Nat → AttemptEnv) (m0 m1 : Option String)
      (c0 c1 : List Call),
      ri.ri_ldp = true → ri.ri_bind_method = AUTH_SIMPLE →
      dispatchOp re (env 0).opRc = some (.ret LDAP_SERVER_DOWN m0 c0) →
      dispatchOp re (env 1).opRc = some (.ret LDAP_SUCCESS m1 c1) →
      (env 1).bindEnv.openOk = true →
      (env 1).bindEnv.simpleRc = LDAP_SUCCESS →
      do_ldap ri re env =
        ⟨.okR, mergeMsg (mergeMsg none m0) m1,
          c0 ++ Call.unbindC :: Call.openConn ri.ri_hostname ri.ri_port ::
            Call.simpleBind ri.ri_bind_dn ri.ri_password :: c1⟩) ∧
    (∀ (ri : Ri) (re : Re) (env : Nat → AttemptEnv),
      ri.ri_ldp = false →
      (do_bind ri (env 0).bindEnv).rc ≠ BindRet.bindOk →
      do_ldap ri re env =
        ⟨.retryable, none, (do_bind ri (env 0).bindEnv).calls⟩) := by
  refine ⟨?_, ?_, ?_⟩
  · intro ri re env m0 m1 c0 c1 hldp hm hd0 hd1 ho hrc
    have hb : do_bind { ri with ri_ldp := false } (env 1).bindEnv =
        ⟨.bindOk, 0, { ri with ri_ldp := true },
          [Call.openConn ri.ri_hostname ri.ri_port,
            Call.simpleBind ri.ri_bind_dn ri.ri_password]⟩ := by
      simp [do_bind, ho, hm, hrc, AUTH_SIMPLE, AUTH_KERBEROS, LDAP_SUCCESS]
    simp [do_ldap, doLdapLoop, hldp, hd0, hd1, hb, do_unbind,
      LDAP_SERVER_DOWN, LDAP_SUCCESS]
  · intro ri re env m0 m1 c0 c1 hldp hm hd0 hd1 ho hrc
    have hb : do_bind { ri with ri_ldp := false } (env 1).bindEnv =
        ⟨.bindOk, 0, { ri with ri_ldp := true },
          [Call.openConn ri.ri_hostname ri.ri_port,
            Call.simpleBind ri.ri_bind_dn ri.ri_password]⟩ := by
      simp [do_bind, ho, hm, hrc, AUTH_SIMPLE, AUTH_KERBEROS, LDAP_SUCCESS]
    simp [do_ldap, doLdapLoop, hldp, hd0, hd1, hb, do_unbind,
      LDAP_SERVER_DOWN, LDAP_SUCCESS]
  · intro ri re env hldp hbf
    have hb2 : ((do_bind ri (env 0).bindEnv).rc == BindRet.bindOk) = false := by
      cases hrc : (do_bind ri (env 0).bindEnv).rc <;> simp_all
    simp [do_ldap, doLdapLoop, hldp, hb2]

/-- Witness for C7: a delete record against concrete replicas whose protocol
layer reports "server down" twice (fatal after one rebind), "server down"
then success (ok), and a failed open at the start (retryable with no
dispatch). -/
theorem c7_retry_controller_witness :
    do_ldap ⟨"h", 389, AUTH_SIMPLE, "cn=r", "pw", true⟩
        ⟨"cn=x", T_DELETECT, none⟩
        (fun _ => ⟨⟨true, 0⟩, LDAP_SERVER_DOWN⟩) =
      ⟨.fatal, none, [Call.deleteOp "cn=x", Call.unbindC,
        Call.openConn "h" 389, Call.simpleBind "cn=r" "pw",
        Call.deleteOp "cn=x", Call.unbindC]⟩ ∧
    do_ldap ⟨"h", 389, AUTH_SIMPLE, "cn=r", "pw", true⟩
        ⟨"cn=x", T_DELETECT, none⟩
        (fun n => if n = 0 then ⟨⟨true, 0⟩, LDAP_SERVER_DOWN⟩
          else ⟨⟨true, 0⟩, LDAP_SUCCESS⟩) =
      ⟨.okR, none, [Call.deleteOp "cn=x", Call.unbindC,
        Call.openConn "h" 389, Call.simpleBind "cn=r" "pw",
        Call.deleteOp "cn=x"]⟩ ∧
    do_ldap ⟨"h", 389, AUTH_SIMPLE, "cn=r", "pw", false⟩
        ⟨"cn=x", T_DELETECT, none⟩ (fun _ => ⟨⟨false, 0⟩, 0⟩) =
      ⟨.retryable, none, [Call.openConn "h" 389]⟩ := by
  refine ⟨?_, ?_, ?_⟩
  · exact c7_retry_controller.1 ⟨"h", 389, AUTH_SIMPLE, "cn=r", "pw", true⟩
      ⟨"cn=x", T_DELETECT, none⟩ (fun _ => ⟨⟨true, 0⟩, LDAP_SERVER_DOWN⟩)
      none none [Call.deleteOp "cn=x"] [Call.deleteOp "cn=x"]
      rfl rfl rfl rfl rfl rfl
  · exact c7_retry_controller.2.1 ⟨"h", 389, AUTH_SIMPLE, "cn=r", "pw", true⟩
      ⟨"cn=x", T_DELETECT, none⟩
      (fun n => if n = 0 then ⟨⟨true, 0⟩, LDAP_SERVER_DOWN⟩
        else ⟨⟨true, 0⟩, LDAP_SUCCESS⟩)
      none none [Call.deleteOp "cn=x"] [Call.deleteOp "cn=x"]
      rfl rfl rfl rfl rfl rfl
  · exact c7_retry_controller.2.2 ⟨"h", 389, AUTH_SIMPLE, "cn=r", "pw", false⟩
      ⟨"cn=x", T_DELETECT, none⟩ (fun _ => ⟨⟨false, 0⟩, 0⟩) rfl (by decide)

end Slurpd
